import Mathlib

/-!
Verification of the Agent orchestration layer of `alf/algorithms/agent.py`.

The source composes a policy RL algorithm, an optional intrinsic-curiosity
module (ICM) and an optional entropy-target controller into one agent.
We shallowly embed the orchestration code:

* A runtime value (a TensorFlow tensor, or the empty placeholder `()` used
  as the default of the namedtuples) is modelled by `Val`: `Val.tensor x`
  with `x : ℚ` models a numeric tensor, `Val.empty` models `()` (or any
  non-tensor placeholder).  `isinstance(v, tf.Tensor)` becomes
  `Val.isTensor v`.
* The namedtuples `AgentState`, `AgentInfo`, `AgentLossInfo` (agent.py
  lines 32-38) become structures whose fields default to `Val.empty`,
  mirroring `default_value=()`.
* Sub-algorithms are external collaborators (only their interface is in
  this repository), so they are modelled as records of arbitrary Lean
  functions matching the contract the orchestrator uses.
* Python object identity (`id(reward) != id(external_reward)` in
  `calc_training_reward`) is modelled by a boolean `fresh` carried in the
  result: every arithmetic operation on a float/tensor allocates a new
  object, so the result is a new object exactly when the scaling or the
  addition branch ran.
* `add_reward_summary` side effects are modelled by an explicit list of
  emitted (name, value) summary records.
-/

/-- A runtime value: a numeric tensor (modelled with exact rationals) or the
empty placeholder `()` that the namedtuples use as default value. -/
inductive Val : Type where
  | tensor (x : ℚ)
  | empty
deriving DecidableEq, Repr

/-- Models `isinstance(v, tf.Tensor)`. -/
def Val.isTensor : Val → Bool
  | .tensor _ => true
  | .empty => false

/-- Tensor scaling `c * v` (only ever applied to tensors in the claims). -/
def Val.scale (c : ℚ) : Val → Val
  | .tensor x => .tensor (c * x)
  | .empty => .empty

/-- Tensor addition `v + w` (only ever applied to tensors in the claims). -/
def Val.add : Val → Val → Val
  | .tensor x, .tensor y => .tensor (x + y)
  | _, _ => .empty

/-- Numeric reading of a value, with the placeholder read as zero. -/
def Val.toQ : Val → ℚ
  | .tensor x => x
  | .empty => 0

/-- `AgentState = namedtuple("AgentState", ["rl", "icm"], default_value=())`,
agent.py line 32. -/
structure AgentState : Type where
  rl : Val := .empty
  icm : Val := .empty
deriving DecidableEq, Repr

/-- Info produced by the intrinsic-curiosity module's `train_step`; the
orchestrator reads its `reward` field, everything else is opaque (`rest`). -/
structure ICMInfo : Type where
  reward : Val := .empty
  rest : Val := .empty
deriving DecidableEq, Repr

/-- `AgentInfo = namedtuple("AgentInfo", ["rl", "icm", "entropy_target"],
default_value=())`, agent.py lines 34-35.  When no curiosity module is
configured the `icm` field keeps its all-empty default, modelling `()`. -/
structure AgentInfo : Type where
  rl : Val := .empty
  icm : ICMInfo := {}
  entropy_target : Val := .empty
deriving DecidableEq, Repr

/-- `AgentLossInfo = namedtuple("AgentLossInfo", ["rl", "icm",
"entropy_target"], default_value=())`, agent.py lines 37-38. -/
structure AgentLossInfo : Type where
  rl : Val := .empty
  icm : Val := .empty
  entropy_target : Val := .empty
deriving DecidableEq, Repr

/-- `LossInfo(loss, scalar_loss, extra)` of alf, generic in the type of the
`extra` diagnostics. -/
structure LossInfo (E : Type) : Type where
  loss : Val := .empty
  scalar_loss : Val := .empty
  extra : E
deriving DecidableEq, Repr

/-- `PolicyStep(action, state, info)` of tf_agents, generic in the state and
info carried. -/
structure PolicyStep (S : Type) (I : Type) : Type where
  action : Val := .empty
  state : S
  info : I
deriving DecidableEq, Repr

/-- `ActionTimeStep`: the fields the orchestrator reads or rewrites. -/
structure ActionTimeStep : Type where
  observation : Val := .empty
  prev_action : Val := .empty
deriving DecidableEq, Repr

/-- `TrainingInfo`: the fields the orchestrator reads or rewrites (`reward`,
`info`); all remaining fields are kept opaque in `rest` so that
`_replace` keeping them unchanged is visible.  Generic in the info type
because `calc_loss` re-wraps it with the rl slice of the info. -/
structure TrainingInfo (I : Type) : Type where
  reward : Val := .empty
  info : I
  rest : Val := .empty
deriving DecidableEq, Repr

/-- `Experience`: stored experience record; `reward` and `info` are the
fields the orchestrator touches, `rest` is everything else. -/
structure Experience : Type where
  reward : Val := .empty
  info : AgentInfo := {}
  rest : Val := .empty
deriving DecidableEq, Repr

/-- The policy RL sub-algorithm, an external collaborator: the operations
and static specs the orchestrator uses, as arbitrary functions. -/
structure RLAlgorithm : Type where
  predictF : ActionTimeStep → Val → PolicyStep Val Val
  rolloutF : ActionTimeStep → Val → PolicyStep Val Val
  calcLoss : TrainingInfo Val → LossInfo Val
  preprocessExp : Experience → Experience
  train_state_spec : Val := .empty
  predict_state_spec : Val := .empty

/-- The intrinsic-curiosity sub-algorithm: `train_step((obs, prev_action),
state, calc_intrinsic_reward)` and `calc_loss(icm_info)`, plus the state
specs of the sub-algorithm contract. -/
structure ICMAlgorithm : Type where
  train_step : Val × Val → Val → Bool → PolicyStep Val ICMInfo
  calcLoss : ICMInfo → LossInfo Val
  train_state_spec : Val := .empty
  predict_state_spec : Val := .empty

/-- The entropy-target controller: `train_step(action)` and
`calc_loss(et_info)`. -/
structure EntropyTargetAlgorithm : Type where
  train_step : Val → PolicyStep Val Val
  calcLoss : Val → LossInfo Val

/-- The Agent's configuration after `__init__`: the sub-algorithms it
stored and the reward coefficients (agent.py lines 147-152). -/
structure Agent : Type where
  rl_algorithm : RLAlgorithm
  icm : Option ICMAlgorithm := none
  entropy_target_algorithm : Option EntropyTargetAlgorithm := none
  encoding_network : Option (Val → Val) := none
  intrinsic_reward_coef : ℚ := 1
  extrinsic_reward_coef : ℚ := 1

/-- The composite state specs built by `Agent.__init__` (agent.py lines
103-119): `train_state_spec`/`predict_state_spec` start as
`AgentState(rl=...)` and only the train spec's `icm` field is filled in when
a curiosity module is given.  The entropy-target controller has no field in
`AgentState` at all. -/
structure AgentSpecs : Type where
  train_state_spec : AgentState
  predict_state_spec : AgentState
deriving DecidableEq, Repr

/-- `Agent.__init__`, the state-spec construction part (agent.py lines
103-119). -/
def Agent.init_state_specs (rl : RLAlgorithm) (icm : Option ICMAlgorithm) :
    AgentSpecs :=
  let train_state_spec : AgentState := { rl := rl.train_state_spec }
  let predict_state_spec : AgentState := { rl := rl.predict_state_spec }
  match icm with
  | some m =>
      { train_state_spec := { train_state_spec with icm := m.train_state_spec }
        predict_state_spec := predict_state_spec }
  | none =>
      { train_state_spec := train_state_spec
        predict_state_spec := predict_state_spec }

/-- `Agent._encode` (agent.py lines 154-158). -/
def Agent.encode (a : Agent) (time_step : ActionTimeStep) : Val :=
  match a.encoding_network with
  | none => time_step.observation
  | some f => f time_step.observation

/-- `Agent.predict` (agent.py lines 160-170): encode, run the policy's
predict on the rl sub-state, return its action with a fresh `AgentState`
whose `rl` field only is set, and `info=()`. -/
def Agent.predict (a : Agent) (time_step : ActionTimeStep)
    (state : AgentState) : PolicyStep AgentState Val :=
  let observation := a.encode time_step
  let new_state : AgentState := {}
  let rl_step := a.rl_algorithm.predictF
    { time_step with observation := observation } state.rl
  let new_state := { new_state with rl := rl_step.state }
  { action := rl_step.action, state := new_state, info := .empty }

/-- `Agent.rollout` (agent.py lines 172-200): encode; if a curiosity module
is present run its `train_step` on (encoded obs, prev action) with
`calc_intrinsic_reward = not with_experience`; run the policy's rollout;
if present run the entropy-target controller on the sampled action. -/
def Agent.rollout (a : Agent) (time_step : ActionTimeStep)
    (state : AgentState) (with_experience : Bool) :
    PolicyStep AgentState AgentInfo :=
  let new_state : AgentState := {}
  let info : AgentInfo := {}
  let observation := a.encode time_step
  let step1 : AgentInfo × AgentState :=
    match a.icm with
    | none => (info, new_state)
    | some m =>
        let icm_step := m.train_step (observation, time_step.prev_action)
          state.icm (!with_experience)
        ({ info with icm := icm_step.info },
         { new_state with icm := icm_step.state })
  let info := step1.1
  let new_state := step1.2
  let rl_step := a.rl_algorithm.rolloutF
    { time_step with observation := observation } state.rl
  let new_state := { new_state with rl := rl_step.state }
  let info := { info with rl := rl_step.info }
  let info :=
    match a.entropy_target_algorithm with
    | none => info
    | some e =>
        let et_step := e.train_step rl_step.action
        { info with entropy_target := et_step.info }
  { action := rl_step.action, state := new_state, info := info }

/-- Result of `calc_training_reward`: the composed reward, whether it is a
new Python object distinct from the input (`fresh`; every float/tensor
arithmetic operation allocates, so this is exactly
`id(reward) != id(external_reward)`), and the emitted reward summaries. -/
structure RewardResult : Type where
  reward : Val
  fresh : Bool
  summaries : List (String × Val)
deriving DecidableEq, Repr

/-- `Agent.calc_training_reward` (agent.py lines 202-224): scale by the
extrinsic coefficient unless it equals 1, add the scaled intrinsic reward
when a curiosity module is present (also emitting the "reward/icm"
summary), and emit the "reward/overall" summary exactly when the reward
object changed. -/
def Agent.calc_training_reward (a : Agent) (external_reward : Val)
    (info : AgentInfo) : RewardResult :=
  let reward := external_reward
  let step1 : Val × Bool :=
    if a.extrinsic_reward_coef ≠ 1 then
      (Val.scale a.extrinsic_reward_coef reward, true)
    else (reward, false)
  let step2 : Val × Bool × List (String × Val) :=
    match a.icm with
    | none => (step1.1, step1.2, [])
    | some _ =>
        (Val.add step1.1 (Val.scale a.intrinsic_reward_coef info.icm.reward),
         true, [("reward/icm", info.icm.reward)])
  let reward := step2.1
  let fresh := step2.2.1
  let summaries :=
    if fresh then step2.2.2 ++ [("reward/overall", reward)] else step2.2.2
  { reward := reward, fresh := fresh, summaries := summaries }

/-- The local `_add(x, y)` of `Agent.calc_loss` (agent.py lines 234-240):
if `y` is not a tensor return `x`, else if `x` is not a tensor return `y`,
else return `x + y`. -/
def lossAdd : Val → Val → Val
  | x, .empty => x
  | .empty, y => y
  | .tensor a, .tensor b => .tensor (a + b)

/-- The body of `Agent.calc_loss` after the reward substitution (agent.py
lines 234-261): the policy loss becomes the base record with its extra
under the `rl` key, then `_update_loss` folds in the curiosity loss and the
entropy-target loss (`_update_loss` is specialised to each field because it
selects the info slice by field name). -/
def Agent.aggregate_loss (a : Agent) (training_info : TrainingInfo AgentInfo) :
    LossInfo AgentLossInfo :=
  let rl_loss_info := a.rl_algorithm.calcLoss
    { reward := training_info.reward
      info := training_info.info.rl
      rest := training_info.rest }
  let loss_info : LossInfo AgentLossInfo :=
    { loss := rl_loss_info.loss
      scalar_loss := rl_loss_info.scalar_loss
      extra := { rl := rl_loss_info.extra } }
  let loss_info :=
    match a.icm with
    | none => loss_info
    | some m =>
        let new_loss_info := m.calcLoss training_info.info.icm
        { loss := lossAdd loss_info.loss new_loss_info.loss
          scalar_loss := lossAdd loss_info.scalar_loss new_loss_info.scalar_loss
          extra := { loss_info.extra with icm := new_loss_info.extra } }
  match a.entropy_target_algorithm with
  | none => loss_info
  | some e =>
      let new_loss_info := e.calcLoss training_info.info.entropy_target
      { loss := lossAdd loss_info.loss new_loss_info.loss
        scalar_loss := lossAdd loss_info.scalar_loss new_loss_info.scalar_loss
        extra := { loss_info.extra with entropy_target := new_loss_info.extra } }

/-- `Agent.calc_loss` (agent.py lines 226-261): when a curiosity module is
present and `info.icm.reward` is a tensor, first substitute the recomputed
training reward into the training info, then aggregate the sub-losses. -/
def Agent.calc_loss (a : Agent) (training_info : TrainingInfo AgentInfo) :
    LossInfo AgentLossInfo :=
  let training_info :=
    if a.icm.isSome && Val.isTensor training_info.info.icm.reward then
      { training_info with
        reward := (a.calc_training_reward training_info.reward
          training_info.info).reward }
    else training_info
  a.aggregate_loss training_info

/-- `Agent.preprocess_experience` (agent.py lines 263-266): recompute the
training reward from the stored reward and info, replace the experience's
reward, delegate to the policy sub-algorithm. -/
def Agent.preprocess_experience (a : Agent) (exp : Experience) : Experience :=
  let reward := (a.calc_training_reward exp.reward exp.info).reward
  a.rl_algorithm.preprocessExp { exp with reward := reward }

/-! Concrete sample collaborators, used to instantiate the theorems below on
closed inputs. -/

/-- A concrete policy sub-algorithm.  Its `calc_loss` copies the training
reward into the loss so that the reward reaching the loss computation is
observable in the output. -/
def sampleRL : RLAlgorithm where
  predictF := fun ts s => { action := ts.observation, state := Val.add s ts.observation, info := .empty }
  rolloutF := fun ts s => { action := ts.observation, state := s, info := ts.prev_action }
  calcLoss := fun ti => { loss := ti.reward, scalar_loss := .tensor 1, extra := .tensor 2 }
  preprocessExp := fun e => { e with rest := .tensor 9 }
  train_state_spec := .tensor 1
  predict_state_spec := .tensor 2

/-- A concrete curiosity module: its `train_step` reports an intrinsic
reward only when `calc_intrinsic_reward` is true. -/
def sampleICM : ICMAlgorithm where
  train_step := fun o s c =>
    { action := .empty
      state := Val.add s o.1
      info := { reward := if c then .tensor 1 else .empty, rest := o.2 } }
  calcLoss := fun i => { loss := i.reward, scalar_loss := .empty, extra := .tensor 3 }
  train_state_spec := .tensor 5
  predict_state_spec := .tensor 7

/-- A concrete entropy-target controller. -/
def sampleET : EntropyTargetAlgorithm where
  train_step := fun act => { action := act, state := .empty, info := act }
  calcLoss := fun i => { loss := Val.add i (.tensor 4), scalar_loss := .empty, extra := .tensor 6 }

/-- Agent with only the policy sub-algorithm, both coefficients 1. -/
def agentPlain : Agent where
  rl_algorithm := sampleRL

/-- Agent with policy and curiosity, `intrinsic_reward_coef = 2`,
`extrinsic_reward_coef = 1`. -/
def agentICM : Agent where
  rl_algorithm := sampleRL
  icm := some sampleICM
  intrinsic_reward_coef := 2

/-- Agent with all three sub-algorithms and a non-unit extrinsic
coefficient. -/
def agentFull : Agent where
  rl_algorithm := sampleRL
  icm := some sampleICM
  entropy_target_algorithm := some sampleET
  intrinsic_reward_coef := 2
  extrinsic_reward_coef := 3

/-- An `AgentInfo` whose curiosity slice carries intrinsic reward `1/5`. -/
def sampleInfoFifth : AgentInfo where
  icm := { reward := .tensor (1/5) }

/-- A training info whose curiosity reward is a genuine tensor. -/
def sampleTI : TrainingInfo AgentInfo where
  reward := .tensor 5
  info := sampleInfoFifth
  rest := .tensor 8

/-- A training info whose curiosity reward is the placeholder `()`. -/
def sampleTIPlaceholder : TrainingInfo AgentInfo where
  reward := .tensor 5
  info := {}
  rest := .tensor 8

/-! Helper lemmas. -/

/-- `_add` of `calc_loss` adds numerically, reading the non-tensor
placeholder as zero. -/
theorem lossAdd_toQ (x y : Val) : (lossAdd x y).toQ = x.toQ + y.toQ := by
  cases x <;> cases y <;> simp [lossAdd, Val.toQ]

/-- The loss and scalar loss of `aggregate_loss` are the sums of the
sub-algorithm contributions, placeholders read as zero. -/
theorem aggregate_loss_components (a : Agent) (u : TrainingInfo AgentInfo) :
    Val.toQ (a.aggregate_loss u).loss =
      Val.toQ (a.rl_algorithm.calcLoss
        { reward := u.reward, info := u.info.rl, rest := u.rest }).loss
      + (match a.icm with
         | some m => Val.toQ (m.calcLoss u.info.icm).loss
         | none => 0)
      + (match a.entropy_target_algorithm with
         | some e => Val.toQ (e.calcLoss u.info.entropy_target).loss
         | none => 0) ∧
    Val.toQ (a.aggregate_loss u).scalar_loss =
      Val.toQ (a.rl_algorithm.calcLoss
        { reward := u.reward, info := u.info.rl, rest := u.rest }).scalar_loss
      + (match a.icm with
         | some m => Val.toQ (m.calcLoss u.info.icm).scalar_loss
         | none => 0)
      + (match a.entropy_target_algorithm with
         | some e => Val.toQ (e.calcLoss u.info.entropy_target).scalar_loss
         | none => 0) := by
  rcases a with ⟨rl, icm, et, enc, ic, ec⟩
  cases icm <;> cases et <;>
    simp [Agent.aggregate_loss, lossAdd_toQ]

/-! Claim theorems. -/

/-- Claim C1: for every training-info structure, the loss record returned by
`calc_loss` has total loss and scalar loss equal to the exact sum of the
losses of all active sub-algorithms (policy, then curiosity, then entropy
controller, on the possibly reward-substituted training info), a sub-loss
value that is not a numeric tensor contributing zero; and when no curiosity
module and no entropy controller are configured, the returned record is
exactly the policy sub-algorithm's loss (with its extra wrapped under the
`rl` key). -/
theorem agent_calc_loss_aggregates_sub_losses (a : Agent)
    (ti ti2 : TrainingInfo AgentInfo)
    (h2 : ti2 =
      if a.icm.isSome && Val.isTensor ti.info.icm.reward then
        { ti with
          reward := (a.calc_training_reward ti.reward ti.info).reward }
      else ti) :
    Val.toQ (a.calc_loss ti).loss =
      Val.toQ (a.rl_algorithm.calcLoss
        { reward := ti2.reward, info := ti2.info.rl, rest := ti2.rest }).loss
      + (match a.icm with
         | some m => Val.toQ (m.calcLoss ti2.info.icm).loss
         | none => 0)
      + (match a.entropy_target_algorithm with
         | some e => Val.toQ (e.calcLoss ti2.info.entropy_target).loss
         | none => 0) ∧
    Val.toQ (a.calc_loss ti).scalar_loss =
      Val.toQ (a.rl_algorithm.calcLoss
        { reward := ti2.reward, info := ti2.info.rl,
          rest := ti2.rest }).scalar_loss
      + (match a.icm with
         | some m => Val.toQ (m.calcLoss ti2.info.icm).scalar_loss
         | none => 0)
      + (match a.entropy_target_algorithm with
         | some e => Val.toQ (e.calcLoss ti2.info.entropy_target).scalar_loss
         | none => 0) ∧
    (a.icm = none → a.entropy_target_algorithm = none →
      a.calc_loss ti =
        { loss := (a.rl_algorithm.calcLoss
            { reward := ti.reward, info := ti.info.rl, rest := ti.rest }).loss
          scalar_loss := (a.rl_algorithm.calcLoss
            { reward := ti.reward, info := ti.info.rl,
              rest := ti.rest }).scalar_loss
          extra :=
            { rl := (a.rl_algorithm.calcLoss
                { reward := ti.reward, info := ti.info.rl,
                  rest := ti.rest }).extra
              icm := Val.empty
              entropy_target := Val.empty } }) := by
  subst h2
  refine ⟨(aggregate_loss_components a _).1, (aggregate_loss_components a _).2,
    fun h1 h2 => ?_⟩
  simp [Agent.calc_loss, Agent.aggregate_loss, h1, h2]

/-- Witness for C1 at the curiosity-free agent on a concrete training info:
the aggregate loss is exactly the policy loss. -/
theorem agent_calc_loss_aggregates_sub_losses_witness :
    Val.toQ (agentPlain.calc_loss sampleTIPlaceholder).loss = 5 ∧
    agentPlain.calc_loss sampleTIPlaceholder =
      { loss := Val.tensor 5, scalar_loss := Val.tensor 1
        extra := { rl := Val.tensor 2, icm := Val.empty,
                   entropy_target := Val.empty } } := by
  have h := agent_calc_loss_aggregates_sub_losses agentPlain
    sampleTIPlaceholder sampleTIPlaceholder rfl
  refine ⟨?_, by rw [h.2.2 rfl rfl]; decide⟩
  rw [h.1]
  norm_num [agentPlain, sampleRL, sampleTIPlaceholder, Val.toQ]

/-- Claim C2: with a curiosity module configured and `info.icm.reward` a
numeric tensor `i`, `calc_training_reward` of tensor `r` returns the tensor
`extrinsic_reward_coef * r + intrinsic_reward_coef * i`; with no curiosity
module and `extrinsic_reward_coef = 1`, it returns the input reward
unchanged. -/
theorem agent_calc_training_reward_formula (a : Agent) (r i : ℚ)
    (info : AgentInfo) :
    (a.icm.isSome = true → info.icm.reward = Val.tensor i →
      (a.calc_training_reward (Val.tensor r) info).reward =
        Val.tensor (a.extrinsic_reward_coef * r
          + a.intrinsic_reward_coef * i)) ∧
    (a.icm = none → a.extrinsic_reward_coef = 1 →
      (a.calc_training_reward (Val.tensor r) info).reward = Val.tensor r) := by
  constructor
  · intro hs hr
    match h : a.icm with
    | none => simp [h] at hs
    | some m =>
        by_cases hc : a.extrinsic_reward_coef = 1 <;>
          simp [Agent.calc_training_reward, h, hr, hc, Val.scale, Val.add]
  · intro h0 h1
    simp [Agent.calc_training_reward, h0, h1]

/-- Witness for C2: with intrinsic reward `1/5`, `intrinsic_reward_coef = 2`
and `extrinsic_reward_coef = 1`, `calc_training_reward(5.0, info)` gives
`27/5 = 5.4`; with no curiosity module and coefficient 1 it gives exactly
`5`. -/
theorem agent_calc_training_reward_formula_witness :
    agentICM.icm.isSome = true ∧
    sampleInfoFifth.icm.reward = Val.tensor (1/5) ∧
    (agentICM.calc_training_reward (Val.tensor 5) sampleInfoFifth).reward =
      Val.tensor (27/5) ∧
    agentPlain.icm = none ∧
    agentPlain.extrinsic_reward_coef = 1 ∧
    (agentPlain.calc_training_reward (Val.tensor 5) sampleInfoFifth).reward =
      Val.tensor 5 := by
  refine ⟨rfl, rfl, ?_, rfl, rfl,
    (agent_calc_training_reward_formula agentPlain 5 (1/5)
      sampleInfoFifth).2 rfl rfl⟩
  have h := (agent_calc_training_reward_formula agentICM 5 (1/5)
    sampleInfoFifth).1 rfl rfl
  rw [h]
  norm_num [agentICM]

/-- Claim C4: `calc_loss` substitutes the recomputed training reward into
the training info before any loss computation exactly when a curiosity
module is present and the info's `icm.reward` is a numeric tensor; in every
other case the training info reaches the loss aggregation unchanged. -/
theorem agent_calc_loss_reward_substitution (a : Agent)
    (ti : TrainingInfo AgentInfo) :
    (a.icm.isSome = true → Val.isTensor ti.info.icm.reward = true →
      a.calc_loss ti = a.aggregate_loss
        { ti with
          reward := (a.calc_training_reward ti.reward ti.info).reward }) ∧
    (a.icm.isSome = false ∨ Val.isTensor ti.info.icm.reward = false →
      a.calc_loss ti = a.aggregate_loss ti) := by
  constructor
  · intro h1 h2
    simp [Agent.calc_loss, h1, h2]
  · rintro (h | h) <;> simp [Agent.calc_loss, h]

/-- Witness for C4: the same agent with curiosity substitutes the reward on
a tensor-valued info and leaves a placeholder-valued info unchanged. -/
theorem agent_calc_loss_reward_substitution_witness :
    agentICM.icm.isSome = true ∧
    Val.isTensor sampleTI.info.icm.reward = true ∧
    agentICM.calc_loss sampleTI = agentICM.aggregate_loss
      { sampleTI with
        reward := (agentICM.calc_training_reward sampleTI.reward
          sampleTI.info).reward } ∧
    Val.isTensor sampleTIPlaceholder.info.icm.reward = false ∧
    agentICM.calc_loss sampleTIPlaceholder =
      agentICM.aggregate_loss sampleTIPlaceholder :=
  ⟨rfl, rfl,
    (agent_calc_loss_reward_substitution agentICM sampleTI).1 rfl rfl,
    rfl,
    (agent_calc_loss_reward_substitution agentICM sampleTIPlaceholder).2
      (Or.inr rfl)⟩

/-- Claim C5: when `extrinsic_reward_coef = 1` and no curiosity module is
configured, `calc_training_reward` returns the identical object it was
given (no rebuild: the `fresh` flag is false) and no "reward/overall"
diagnostic is emitted; in general the "reward/overall" diagnostic is
emitted exactly when the returned reward is a new object distinct from the
input. -/
theorem agent_calc_training_reward_identity_and_diagnostic (a : Agent)
    (r : Val) (info : AgentInfo) :
    (a.extrinsic_reward_coef = 1 → a.icm = none →
      (a.calc_training_reward r info).reward = r ∧
      (a.calc_training_reward r info).fresh = false) ∧
    ("reward/overall" ∈
        ((a.calc_training_reward r info).summaries.map Prod.fst) ↔
      (a.calc_training_reward r info).fresh = true) := by
  constructor
  · intro h1 h0
    simp [Agent.calc_training_reward, h1, h0]
  · match h : a.icm with
    | none =>
        by_cases hc : a.extrinsic_reward_coef = 1 <;>
          simp [Agent.calc_training_reward, h, hc]
    | some m =>
        by_cases hc : a.extrinsic_reward_coef = 1 <;>
          simp [Agent.calc_training_reward, h, hc]

/-- Witness for C5: the plain agent returns tensor 5 itself with no
diagnostic; the full agent produces a fresh reward and does emit the
"reward/overall" diagnostic. -/
theorem agent_calc_training_reward_identity_and_diagnostic_witness :
    agentPlain.extrinsic_reward_coef = 1 ∧ agentPlain.icm = none ∧
    (agentPlain.calc_training_reward (Val.tensor 5) {}).reward =
      Val.tensor 5 ∧
    (agentPlain.calc_training_reward (Val.tensor 5) {}).fresh = false ∧
    ¬ "reward/overall" ∈
      ((agentPlain.calc_training_reward (Val.tensor 5) {}).summaries.map
        Prod.fst) ∧
    ("reward/overall" ∈
      ((agentFull.calc_training_reward (Val.tensor 5)
        sampleInfoFifth).summaries.map Prod.fst)) := by
  have h := agent_calc_training_reward_identity_and_diagnostic agentPlain
    (Val.tensor 5) {}
  have h2 := agent_calc_training_reward_identity_and_diagnostic agentFull
    (Val.tensor 5) sampleInfoFifth
  exact ⟨rfl, rfl, (h.1 rfl rfl).1, (h.1 rfl rfl).2,
    fun hm => by simpa [(h.1 rfl rfl).2] using h.2.mp hm,
    h2.2.mpr (by decide)⟩

/-- Claim C3: `rollout` first encodes the observation; when a curiosity
module is present it runs the module's `train_step` on (encoded
observation, previous action) with `calc_intrinsic_reward` set exactly to
the negation of `with_experience`; the policy's rollout runs on the encoded
observation; when enabled the entropy-target controller runs on the
sampled action; the returned action is the policy's action, and the
returned state/info have `rl` and `icm` populated from the corresponding
sub-steps. -/
theorem agent_rollout_order (a : Agent) (ts : ActionTimeStep)
    (s : AgentState) (we : Bool) :
    (a.rollout ts s we).action =
      (a.rl_algorithm.rolloutF { ts with observation := a.encode ts }
        s.rl).action ∧
    (a.rollout ts s we).state.rl =
      (a.rl_algorithm.rolloutF { ts with observation := a.encode ts }
        s.rl).state ∧
    (a.rollout ts s we).info.rl =
      (a.rl_algorithm.rolloutF { ts with observation := a.encode ts }
        s.rl).info ∧
    (a.rollout ts s we).state.icm =
      (match a.icm with
       | some m =>
           (m.train_step (a.encode ts, ts.prev_action) s.icm (!we)).state
       | none => Val.empty) ∧
    (a.rollout ts s we).info.icm =
      (match a.icm with
       | some m =>
           (m.train_step (a.encode ts, ts.prev_action) s.icm (!we)).info
       | none => ({} : ICMInfo)) ∧
    (a.rollout ts s we).info.entropy_target =
      (match a.entropy_target_algorithm with
       | some e =>
           (e.train_step (a.rl_algorithm.rolloutF
             { ts with observation := a.encode ts } s.rl).action).info
       | none => Val.empty) := by
  rcases a with ⟨rl, icm, et, enc, ic, ec⟩
  cases icm <;> cases et <;>
    simp [Agent.rollout, Agent.encode]

/-- Claim C6: with policy and curiosity active but no entropy controller,
the composite loss extra record has its `rl` and `icm` fields populated
from the respective sub-losses and its `entropy_target` field left at the
empty default. -/
theorem agent_calc_loss_extra_fields (a : Agent)
    (ti ti2 : TrainingInfo AgentInfo) (m : ICMAlgorithm)
    (hicm : a.icm = some m)
    (het : a.entropy_target_algorithm = none)
    (h2 : ti2 =
      if a.icm.isSome && Val.isTensor ti.info.icm.reward then
        { ti with
          reward := (a.calc_training_reward ti.reward ti.info).reward }
      else ti) :
    (a.calc_loss ti).extra.entropy_target = Val.empty ∧
    (a.calc_loss ti).extra.icm = (m.calcLoss ti.info.icm).extra ∧
    (a.calc_loss ti).extra.rl =
      (a.rl_algorithm.calcLoss
        { reward := ti2.reward, info := ti.info.rl, rest := ti.rest }).extra := by
  subst h2
  cases hc : Val.isTensor ti.info.icm.reward <;>
    simp [Agent.calc_loss, Agent.aggregate_loss, hicm, het, hc]

/-- Witness for C6: the policy+curiosity agent on a concrete training info
yields extra fields rl and icm populated and entropy_target empty. -/
theorem agent_calc_loss_extra_fields_witness :
    agentICM.icm = some sampleICM ∧
    agentICM.entropy_target_algorithm = none ∧
    (agentICM.calc_loss sampleTI).extra.entropy_target = Val.empty ∧
    (agentICM.calc_loss sampleTI).extra.icm = Val.tensor 3 ∧
    (agentICM.calc_loss sampleTI).extra.rl = Val.tensor 2 := by
  have h := agent_calc_loss_extra_fields agentICM sampleTI _ sampleICM
    rfl rfl rfl
  exact ⟨rfl, rfl, h.1, by rw [h.2.1]; decide, by rw [h.2.2]; decide⟩

/-- Claim C7, counterexample: with a curiosity module instantiated whose
predict state spec is nonempty, the agent's composite `predict_state_spec`
does not carry the module's state spec in its `icm` field (the constructor
never fills it), contradicting the claim that each spec's sub-field equals
the corresponding sub-algorithm's state spec when that sub-algorithm was
instantiated. -/
theorem agent_state_specs_counterexample :
    (Agent.init_state_specs sampleRL (some sampleICM)).predict_state_spec.icm
      ≠ sampleICM.predict_state_spec := by
  decide

/-- Claim C7, amended: `train_state_spec` exactly reflects the instantiated
sub-algorithms (`rl` always set, `icm` set exactly when a curiosity module
was given), while `predict_state_spec` has `rl` set to the policy's predict
state spec and `icm` always the empty default, even when a curiosity module
is instantiated; both are pure functions of the construction inputs, hence
fixed over the agent's lifetime. -/
theorem agent_state_specs_amended (rl : RLAlgorithm)
    (icm : Option ICMAlgorithm) :
    (Agent.init_state_specs rl icm).train_state_spec.rl =
      rl.train_state_spec ∧
    (Agent.init_state_specs rl icm).train_state_spec.icm =
      (match icm with
       | some m => m.train_state_spec
       | none => Val.empty) ∧
    (Agent.init_state_specs rl icm).predict_state_spec =
      { rl := rl.predict_state_spec, icm := Val.empty } := by
  cases icm <;> simp [Agent.init_state_specs]

/-- Claim C8: `preprocess_experience` recomputes the training reward from
the experience's stored reward and info via `calc_training_reward`,
replaces the experience's reward field with it, and delegates to the policy
sub-algorithm with all other fields unchanged. -/
theorem agent_preprocess_experience_recomputes_reward (a : Agent)
    (exp : Experience) :
    a.preprocess_experience exp =
      a.rl_algorithm.preprocessExp
        { reward := (a.calc_training_reward exp.reward exp.info).reward
          info := exp.info
          rest := exp.rest } := rfl

/-- Claim C9: `predict` is a pure function of the policy sub-algorithm and
the encoding network alone — two agents agreeing on those two components
produce identical actions and states on identical inputs, whatever their
curiosity module, entropy controller or reward coefficients.  In
particular two calls with identical inputs yield identical results, and
neither the curiosity module nor the entropy controller is ever invoked on
this path. -/
theorem agent_predict_ignores_training_modules (a1 a2 : Agent)
    (ts : ActionTimeStep) (s : AgentState)
    (hrl : a1.rl_algorithm = a2.rl_algorithm)
    (henc : a1.encoding_network = a2.encoding_network) :
    a1.predict ts s = a2.predict ts s := by
  simp only [Agent.predict, Agent.encode]
  rw [hrl, henc]

/-- Witness for C9: the plain agent and the full agent (which adds a
curiosity module, an entropy controller and different coefficients) share
the policy and encoder, so their predictions coincide. -/
theorem agent_predict_ignores_training_modules_witness :
    agentPlain.rl_algorithm = agentFull.rl_algorithm ∧
    agentPlain.encoding_network = agentFull.encoding_network ∧
    agentPlain.predict { observation := Val.tensor 3 } { rl := Val.tensor 1 }
      = agentFull.predict { observation := Val.tensor 3 }
          { rl := Val.tensor 1 } :=
  ⟨rfl, rfl,
    agent_predict_ignores_training_modules agentPlain agentFull
      { observation := Val.tensor 3 } { rl := Val.tensor 1 } rfl rfl⟩

/-- Claim C10: the `PolicyStep` returned by `predict` carries the empty
value as its info; its state has `rl` set to the policy sub-algorithm's new
predict state while `icm` is the empty default — any icm sub-state in the
input is dropped; the action is the policy's action. -/
theorem agent_predict_output_shape (a : Agent) (ts : ActionTimeStep)
    (s : AgentState) :
    (a.predict ts s).info = Val.empty ∧
    (a.predict ts s).state.icm = Val.empty ∧
    (a.predict ts s).state.rl =
      (a.rl_algorithm.predictF { ts with observation := a.encode ts }
        s.rl).state ∧
    (a.predict ts s).action =
      (a.rl_algorithm.predictF { ts with observation := a.encode ts }
        s.rl).action :=
  ⟨rfl, rfl, rfl, rfl⟩
